import Mathlib

/-!
Verification of the ThreatHawk detection pipeline.

Shallow embedding of the pipeline code:
  - src/src/analyzers/threat_scorer.py   (calculate_threat_score, get_severity_from_score)
  - src/src/analyzers/event_analyzer.py  (analyze_event, analyze_batch, _save_event, _create_alert)
  - src/src/collectors/network_collector.py (_check_suspicious_port, _check_port_scan, collect)
  - src/src/collectors/file_collector.py (_check_extension, _check_file_change, collect)
  - src/src/core/engine.py               (_run_collector loop, stop)
  - src/src/core/constants.py            (SUSPICIOUS_PORTS, SUSPICIOUS_EXTENSIONS, keywords)

Modelling conventions:
  - Python floats are modelled as rationals; round(x, 2) is modelled as exact
    decimal rounding to 2 places (the claims never hit a binary-float tie).
  - uuid ids and wall-clock timestamps are nondeterministic and irrelevant to
    every claim; event ids default to the empty string and created_at is not
    modelled.
  - Persistence (the database sink) is modelled as a list of issued sink
    operations paired with the sink acceptance verdict; the Python code
    swallows sink exceptions (try/except around each write), which is
    modelled by control flow never depending on the verdict.
-/

namespace ThreatHawk

/-- Substring machinery: does the needle occur as a prefix of the haystack?
Models the start of each comparison window of the Python `in` operator. -/
def prefixMatch : List Char → List Char → Bool
  | [], _ => true
  | _ :: _, [] => false
  | a :: as, b :: bs => a == b && prefixMatch as bs

/-- Does the needle occur as a contiguous subsequence of the haystack?
Models the Python `in` operator on strings. -/
def containsSeq (needle : List Char) : List Char → Bool
  | [] => prefixMatch needle []
  | c :: rest => prefixMatch needle (c :: rest) || containsSeq needle rest

/-- String containment test, `needle in hay` in Python. -/
def strContains (needle hay : String) : Bool :=
  containsSeq needle.data hay.data

/-- Python str.lower(), as a character list (kernel-evaluable form of
String.toLower). -/
def lowerChars (s : String) : List Char :=
  s.data.map Char.toLower

/-- Collector-specific structured evidence attached to an event, the Python
dict stored under the raw_data key.  Each constructor corresponds to one of
the literal dict shapes built by a collector. -/
inductive RawData
  /-- Evidence for a remote suspicious-port finding: formatted local address
  (if any), formatted remote address, connection status, pid. -/
  | conn (localAddr : Option String) (remote : Option String) (status : String)
      (pid : Option Nat)
  /-- Evidence for a local suspicious-port finding: formatted local address,
  connection status, pid (the remote key is absent). -/
  | localConn (localAddr : String) (status : String) (pid : Option Nat)
  /-- Evidence for a port-scan finding: unique remote ports, total
  connections. -/
  | scan (unique_ports : Nat) (total_connections : Nat)
  /-- Evidence for a new suspicious file: filename, extension, size, parent
  directory. -/
  | fileNew (filename : String) (extension : String) (size_bytes : Nat)
      (directory : String)
  /-- Evidence for a modified file: filename, old digest, new digest. -/
  | fileMod (filename : String) (old_hash : String) (new_hash : String)
  /-- Process-collector evidence (the psutil info dict); it has no
  total_connections key, so its content is irrelevant to the Scorer. -/
  | procInfo
  deriving DecidableEq

/-- raw_data.get("total_connections", 0): only the port-scan evidence dict
carries the total_connections key. -/
def RawData.total_connections : RawData → Nat
  | .scan _ t => t
  | _ => 0

/-- An observation dict as produced by the collectors and consumed by the
Analyzer and Scorer (event_analyzer.py / threat_scorer.py).  Optional keys
default to the values Python .get would produce. -/
structure Event where
  id : String := ""
  event_type : String
  severity : String := ""
  title : String := ""
  description : String := ""
  source : String := ""
  source_ip : Option String := none
  destination_ip : Option String := none
  process_id : Option Nat := none
  file_path : Option String := none
  threat_score : ℚ := 0
  raw_data : Option RawData := none
  deriving DecidableEq

/-- EVENT_BASE_SCORES.get(event_type, 0.3) from threat_scorer.py. -/
def base_score (event_type : String) : ℚ :=
  if event_type = "suspicious_process" then 8/10
  else if event_type = "network_anomaly" then 6/10
  else if event_type = "file_change" then 5/10
  else if event_type = "high_resource" then 3/10
  else if event_type = "port_scan" then 7/10
  else if event_type = "brute_force" then 8/10
  else if event_type = "usb_device" then 4/10
  else 3/10

/-- The fixed critical-keyword list of threat_scorer.py. -/
def critical_keywords : List String :=
  ["mimikatz", "keylogger", "malware", "backdoor", "trojan", "ransomware"]

/-- The keyword loop of calculate_threat_score: the bonus is applied on the
first matching keyword and the loop breaks, i.e. the score depends on the
text only through this predicate. -/
def has_critical_keyword (e : Event) : Bool :=
  critical_keywords.any fun kw =>
    containsSeq kw.data (lowerChars e.title ++ ' ' :: lowerChars e.description)

/-- event.get("raw_data", dict()).get("total_connections", 0). -/
def conn_count (e : Event) : Nat :=
  match e.raw_data with
  | some rd => rd.total_connections
  | none => 0

/-- Python round(q, 2) modelled as exact decimal rounding to 2 places. -/
def round2 (q : ℚ) : ℚ :=
  ((round (q * 100) : ℤ) : ℚ) / 100

/-- Python min on two rationals, written so the kernel can evaluate it. -/
def pymin (a b : ℚ) : ℚ := if a ≤ b then a else b

/-- Python max on two rationals, written so the kernel can evaluate it. -/
def pymax (a b : ℚ) : ℚ := if a ≤ b then b else a

theorem pymin_eq_min (a b : ℚ) : pymin a b = min a b := by
  simp [pymin, min_def]

theorem pymax_eq_max (a b : ℚ) : pymax a b = max a b := by
  simp [pymax, max_def]

/-- calculate_threat_score from threat_scorer.py. -/
def calculate_threat_score (e : Event) : ℚ :=
  let score := base_score e.event_type
  let score := if 0 < e.threat_score then (score + e.threat_score) / 2 else score
  let score := if has_critical_keyword e then pymin (score + 15/100) 1 else score
  let score := if 50 < conn_count e then pymin (score + 1/10) 1 else score
  pymax 0 (pymin 1 (round2 score))

/-- get_severity_from_score from threat_scorer.py. -/
def get_severity_from_score (score : ℚ) : String :=
  if 7/10 ≤ score then "critical"
  else if 5/10 ≤ score then "high"
  else if 3/10 ≤ score then "medium"
  else "low"

/-! ## Analyzer (event_analyzer.py) -/

/-- ALERT_THRESHOLD from event_analyzer.py. -/
def ALERT_THRESHOLD : ℚ := 5/10

/-- The alert dict built by _create_alert.  The uuid id and the wall-clock
created_at timestamp are nondeterministic and not modelled; every other key
of the Python dict is here. -/
structure AlertData where
  event_id : String
  severity : String
  title : String
  description : String
  status : String
  threat_score : ℚ
  deriving DecidableEq

/-- A persistence call issued to the database sink: _save_event issues a
saveEvent, _create_alert issues a saveAlert. -/
inductive SinkOp
  | saveEvent (e : Event)
  | saveAlert (a : AlertData)
  deriving DecidableEq

/-- The alert dict _create_alert builds from a scored event. -/
def mk_alert (e : Event) : AlertData :=
  { event_id := e.id
    severity := e.severity
    title := e.title
    description := e.description
    status := "new"
    threat_score := e.threat_score }

/-- The score/severity write-back of analyze_event: the event dict with
threat_score and severity keys set from the Scorer. -/
def enrich (e : Event) : Event :=
  let score := calculate_threat_score e
  { e with threat_score := score, severity := get_severity_from_score score }

/-- analyze_event from event_analyzer.py.  The sink argument is the database:
it answers whether each issued write succeeds.  Both _save_event and
_create_alert wrap their database work in try/except that only logs, so the
returned value and control flow never depend on the sink verdicts; the trace
(second component) records every issued call with its verdict. -/
def analyze_event (sink : SinkOp → Bool) (e : Event) :
    Option AlertData × List (SinkOp × Bool) :=
  let e2 := enrich e
  let score := e2.threat_score
  let ops := [(SinkOp.saveEvent e2, sink (SinkOp.saveEvent e2))]
  if ALERT_THRESHOLD ≤ score then
    let a := mk_alert e2
    (some a, ops ++ [(SinkOp.saveAlert a, sink (SinkOp.saveAlert a))])
  else
    (none, ops)

/-- analyze_batch from event_analyzer.py: analyze every event in arrival
order, return the created alerts (and the concatenated sink trace). -/
def analyze_batch (sink : SinkOp → Bool) : List Event → List AlertData × List (SinkOp × Bool)
  | [] => ([], [])
  | e :: rest =>
    let r := analyze_event sink e
    let rs := analyze_batch sink rest
    (r.1.toList ++ rs.1, r.2 ++ rs.2)

/-! ## Engine collector loop body (engine.py _run_collector) -/

/-- One iteration of the _run_collector loop body after collect() returned
`events`: when the batch is nonempty and the collector is not the
system-health one, the batch is routed through analyze_batch and the two
counters are incremented; otherwise nothing at all happens to the batch.
Returns (sink trace, events counted, alerts counted). -/
def run_collector_cycle (sink : SinkOp → Bool) (name : String) (events : List Event) :
    List (SinkOp × Bool) × Nat × Nat :=
  if events ≠ [] ∧ name ≠ "system" then
    let r := analyze_batch sink events
    (r.2, events.length, r.1.length)
  else
    ([], 0, 0)

/-! ## Network collector (network_collector.py) -/

/-- SUSPICIOUS_PORTS from constants.py. -/
def SUSPICIOUS_PORTS : List Nat := [4444, 5555, 6666, 1337, 31337, 12345, 9999]

/-- One endpoint of a connection (psutil addr): ip and port. -/
structure Addr where
  ip : String
  port : Nat
  deriving DecidableEq

/-- A psutil connection record as read by the network collector. -/
structure Conn where
  status : String
  laddr : Option Addr := none
  raddr : Option Addr := none
  pid : Option Nat := none
  deriving DecidableEq

/-- The f-string formatting ip:port used in raw_data. -/
def fmtAddr (a : Addr) : String := a.ip ++ ":" ++ toString a.port

/-- The remote-suspicious-port finding built by _check_suspicious_port. -/
def remote_port_event (c : Conn) (r : Addr) : Event :=
  { event_type := "network_anomaly"
    severity := "high"
    title := "Connection to suspicious port " ++ toString r.port
    description := "Outgoing connection to " ++ r.ip ++ ":" ++ toString r.port
    source := "Network"
    source_ip := c.laddr.map Addr.ip
    destination_ip := some r.ip
    process_id := c.pid
    threat_score := 8/10
    raw_data := some (.conn (c.laddr.map fmtAddr) (some (fmtAddr r)) c.status c.pid) }

/-- The local-suspicious-port finding built by _check_suspicious_port. -/
def local_port_event (c : Conn) (l : Addr) : Event :=
  { event_type := "network_anomaly"
    severity := "critical"
    title := "Suspicious port " ++ toString l.port ++ " is active"
    description := "Local machine listening on suspicious port " ++ toString l.port
    source := "Network"
    source_ip := some l.ip
    threat_score := 85/100
    raw_data := some (.localConn (fmtAddr l) c.status c.pid) }

/-- The local-port half of _check_suspicious_port (reached only when the
remote-port branch did not return). -/
def check_local_port (c : Conn) : Option Event :=
  match c.laddr with
  | some l => if l.port ∈ SUSPICIOUS_PORTS then some (local_port_event c l) else none
  | none => none

/-- _check_suspicious_port from network_collector.py: the remote-port check
returns first, so a matching remote port shadows the local-port check. -/
def check_suspicious_port (c : Conn) : Option Event :=
  match c.raddr with
  | some r =>
    if r.port ∈ SUSPICIOUS_PORTS then some (remote_port_event c r)
    else check_local_port c
  | none => check_local_port c

/-- The port-scan finding built by _check_port_scan. -/
def port_scan_event (uniq total : Nat) : Event :=
  { event_type := "port_scan"
    severity := "high"
    title := "Possible port scan detected (" ++ toString uniq ++ " ports)"
    description := "System connecting to " ++ toString uniq ++ " unique ports"
    source := "Network"
    threat_score := 7/10
    raw_data := some (.scan uniq total) }

/-- _check_port_scan from network_collector.py: fewer than 20 total
connections short-circuits; otherwise fire when 20 or more distinct remote
ports were seen.  List.dedup.length models len(set(remote_ports)). -/
def check_port_scan (remote_ports : List Nat) : Option Event :=
  if remote_ports.length < 20 then none
  else if 20 ≤ remote_ports.dedup.length then
    some (port_scan_event remote_ports.dedup.length remote_ports.length)
  else none

/-- NetworkCollector.collect: per-connection check on every established
connection, then the whole-poll port-scan check on the remote ports of the
established connections that have a remote address. -/
def network_collect (conns : List Conn) : List Event :=
  let est := conns.filter fun c => c.status == "ESTABLISHED"
  let events := est.filterMap check_suspicious_port
  let remote_ports := est.filterMap fun c => c.raddr.map Addr.port
  match check_port_scan remote_ports with
  | some e => events ++ [e]
  | none => events

/-! ## File collector (file_collector.py) -/

/-- SUSPICIOUS_EXTENSIONS from constants.py. -/
def SUSPICIOUS_EXTENSIONS : List String := [".exe", ".bat", ".ps1", ".vbs", ".dll", ".scr"]

/-- One regular file as seen during a poll: its path parts and the digest
calculate_file_hash would produce this poll (none models the call raising). -/
structure FileObs where
  path : String
  filename : String
  suffix : String
  size_bytes : Nat
  directory : String
  digest : Option String
  deriving DecidableEq

/-- The known_files map (path to last stored digest), as an association
list. -/
def lookupKnown (known : List (String × String)) (key : String) : Option String :=
  (known.find? fun p => p.1 == key).map fun p => p.2

/-- Python dict assignment known_files[key] = v. -/
def setKnown : List (String × String) → String → String → List (String × String)
  | [], key, v => [(key, v)]
  | p :: rest, key, v =>
    if p.1 == key then (key, v) :: rest else p :: setKnown rest key v

/-- The new-suspicious-file finding built by _check_extension. -/
def new_file_event (f : FileObs) (ext : String) : Event :=
  { event_type := "file_change"
    severity := "high"
    title := "Suspicious file found: " ++ f.filename
    description := "File with suspicious extension " ++ ext ++ " found at " ++ f.path
    source := "File"
    file_path := some f.path
    threat_score := 7/10
    raw_data := some (.fileNew f.filename ext f.size_bytes f.directory) }

/-- The modified-file finding built by _check_file_change. -/
def file_modified_event (f : FileObs) (old_hash new_hash : String) : Event :=
  { event_type := "file_change"
    severity := "medium"
    title := "File modified: " ++ f.filename
    description := "File hash changed for " ++ f.path
    source := "File"
    file_path := some f.path
    threat_score := 5/10
    raw_data := some (.fileMod f.filename old_hash new_hash) }

/-- _check_extension from file_collector.py: on a suspicious extension not
yet tracked, store the digest (the sentinel "unknown" when hashing raised)
and emit the new-file finding; an already-tracked path emits nothing. -/
def check_extension (known : List (String × String)) (f : FileObs) :
    List (String × String) × Option Event :=
  let ext := String.mk (lowerChars f.suffix)
  if ext ∈ SUSPICIOUS_EXTENSIONS then
    if (lookupKnown known f.path).isSome then (known, none)
    else
      let h := f.digest.getD "unknown"
      (setKnown known f.path h, some (new_file_event f ext))
  else (known, none)

/-- _check_file_change from file_collector.py: only tracked paths are
examined; a hashing failure returns silently; a digest different from the
stored one replaces it and emits the modified finding. -/
def check_file_change (known : List (String × String)) (f : FileObs) :
    List (String × String) × Option Event :=
  match lookupKnown known f.path with
  | none => (known, none)
  | some old_hash =>
    match f.digest with
    | none => (known, none)
    | some current =>
      if current ≠ old_hash then
        (setKnown known f.path current, some (file_modified_event f old_hash current))
      else (known, none)

/-- The per-file body of FileCollector.collect: extension check first, then
the change check, threading the known-files map. -/
def process_file (known : List (String × String)) (f : FileObs) :
    List (String × String) × List Event :=
  let r1 := check_extension known f
  let r2 := check_file_change r1.1 f
  (r2.1, r1.2.toList ++ r2.2.toList)

/-- FileCollector.collect over the regular files seen in one poll. -/
def file_collect (known : List (String × String)) (files : List FileObs) :
    List (String × String) × List Event :=
  files.foldl (fun acc f =>
    let r := process_file acc.1 f
    (r.1, acc.2 ++ r.2)) (known, [])

/-! ## Orchestrator lifecycle (engine.py start / stop / _run_collector)

The _run_collector loop of each collector task is

    while self.is_running:
        events = await collector.collect()
        if events and name != "system": await analyze_batch(events)
        await asyncio.sleep(collector.interval)

and stop() sets is_running to False, shuts the database down and returns.
Cooperative asyncio scheduling is modelled as an interleaving of atomic
steps: one step per await-delimited segment of a task's cycle, one step for
the whole of stop().  The trace records the externally visible events: the
persistence calls a cycle issues (its analyze_batch) and the return of
stop(). -/

/-- Program counter of one collector task inside its _run_collector loop. -/
inductive Pc
  | top
  | collecting
  | analyzing
  | sleeping
  | halted
  deriving DecidableEq

/-- Global engine state: the shared is_running flag, whether stop() has
returned, and each collector task's position (tasks indexed by Nat). -/
structure EngineState where
  running : Bool
  stopReturned : Bool
  pc : Nat → Pc

/-- Trace events: a persistence call issued by task i's cycle, or the return
of stop(). -/
inductive Ev
  | persist (i : Nat)
  | stopRet
  deriving DecidableEq

/-- Update one task's program counter. -/
def setPc (s : EngineState) (i : Nat) (p : Pc) : EngineState :=
  { s with pc := Function.update s.pc i p }

/-- One atomic step of the engine: the while-condition check of a task, the
completion of its collect(), the completion of its analyze_batch (issuing the
cycle's persistence calls), waking from sleep, or the stop() call.  The
running flag is read only at the loop top; nothing ever sets it back to
true. -/
inductive EngStep : EngineState → List Ev → EngineState → Prop
  | enterCycle (s : EngineState) (i : Nat) :
      s.pc i = .top → s.running = true → EngStep s [] (setPc s i .collecting)
  | exitLoop (s : EngineState) (i : Nat) :
      s.pc i = .top → s.running = false → EngStep s [] (setPc s i .halted)
  | collectDone (s : EngineState) (i : Nat) :
      s.pc i = .collecting → EngStep s [] (setPc s i .analyzing)
  | analyzeDone (s : EngineState) (i : Nat) :
      s.pc i = .analyzing → EngStep s [Ev.persist i] (setPc s i .sleeping)
  | sleepDone (s : EngineState) (i : Nat) :
      s.pc i = .sleeping → EngStep s [] (setPc s i .top)
  | stopCall (s : EngineState) :
      s.stopReturned = false →
      EngStep s [Ev.stopRet] { running := false, stopReturned := true, pc := s.pc }

/-- Executions: reflexive-transitive closure of EngStep, concatenating
traces. -/
inductive EngExec : EngineState → List Ev → EngineState → Prop
  | nil (s : EngineState) : EngExec s [] s
  | cons (s t u : EngineState) (evs1 evs2 : List Ev) :
      EngStep s evs1 t → EngExec t evs2 u → EngExec s (evs1 ++ evs2) u

/-- The state right after start(): flag set, every task at its loop top. -/
def engInit : EngineState :=
  { running := true, stopReturned := false, pc := fun _ => Pc.top }

/-- How many further persistence calls task i can still issue once the
running flag is down: one when its cycle is in flight, none otherwise. -/
def postStopBudget : Pc → Nat
  | .collecting => 1
  | .analyzing => 1
  | _ => 0

/-! ## Theorems -/

/-- The final clamp-and-round of calculate_threat_score always lands in
[0,1] on a grid of hundredths. -/
theorem clamp_round_shape (s : ℚ) :
    0 ≤ pymax 0 (pymin 1 (round2 s)) ∧ pymax 0 (pymin 1 (round2 s)) ≤ 1 ∧
    ∃ k : ℤ, pymax 0 (pymin 1 (round2 s)) = (k : ℚ) / 100 := by
  rw [pymax_eq_max, pymin_eq_min]
  refine ⟨le_max_left 0 _, max_le (by norm_num) (min_le_left 1 _), ?_⟩
  rcases le_total 1 (round2 s) with h | h
  · rw [min_eq_left h, max_eq_right (by norm_num : (0:ℚ) ≤ 1)]
    exact ⟨100, by norm_num⟩
  · rw [min_eq_right h]
    rcases le_total 0 (round2 s) with h0 | h0
    · rw [max_eq_right h0]
      exact ⟨round (s * 100), rfl⟩
    · rw [max_eq_left h0]
      exact ⟨0, by norm_num⟩

/-- C2: get_severity_from_score is a total pure function of the score alone
(equal scores always give equal severity, also through the Analyzer's
write-back), it partitions the line by the breakpoints 0.7 / 0.5 / 0.3
evaluated in descending order with no overlap and no gap, and it takes the
claimed values at 0.69, 0.70, 0.49, 0.50, 0.29 and 0.30. -/
theorem C2_severity_partition :
    (∀ s : ℚ, get_severity_from_score s = "critical" ↔ 7/10 ≤ s) ∧
    (∀ s : ℚ, get_severity_from_score s = "high" ↔ 5/10 ≤ s ∧ s < 7/10) ∧
    (∀ s : ℚ, get_severity_from_score s = "medium" ↔ 3/10 ≤ s ∧ s < 5/10) ∧
    (∀ s : ℚ, get_severity_from_score s = "low" ↔ s < 3/10) ∧
    (∀ e1 e2 : Event, calculate_threat_score e1 = calculate_threat_score e2 →
      (enrich e1).severity = (enrich e2).severity) ∧
    get_severity_from_score (69/100) = "high" ∧
    get_severity_from_score (70/100) = "critical" ∧
    get_severity_from_score (49/100) = "medium" ∧
    get_severity_from_score (50/100) = "high" ∧
    get_severity_from_score (29/100) = "low" ∧
    get_severity_from_score (30/100) = "medium" := by
  refine ⟨?_, ?_, ?_, ?_, ?_, ?_, ?_, ?_, ?_, ?_, ?_⟩
  · intro s
    unfold get_severity_from_score
    split_ifs with h1 h2 h3 <;> simp_all <;>
      first | linarith | (constructor <;> linarith) | (intro h9; linarith)
  · intro s
    unfold get_severity_from_score
    split_ifs with h1 h2 h3 <;> simp_all <;>
      first | linarith | (constructor <;> linarith) | (intro h9; linarith)
  · intro s
    unfold get_severity_from_score
    split_ifs with h1 h2 h3 <;> simp_all <;>
      first | linarith | (constructor <;> linarith) | (intro h9; linarith)
  · intro s
    unfold get_severity_from_score
    split_ifs with h1 h2 h3 <;> simp_all <;>
      first | linarith | (constructor <;> linarith) | (intro h9; linarith)
  · intro e1 e2 h
    simp [enrich, h]
  all_goals norm_num [get_severity_from_score]

/-- C2 witness: the partition applied at concrete scores on both sides of
each breakpoint. -/
theorem C2_severity_partition_witness :
    get_severity_from_score (7/10) = "critical" ∧
    get_severity_from_score (0 : ℚ) = "low" :=
  ⟨(C2_severity_partition.1 (7/10)).mpr (by norm_num),
   (C2_severity_partition.2.2.2.1 (0 : ℚ)).mpr (by norm_num)⟩

/-- C3: every score calculate_threat_score returns lies in [0,1] and is an
integer number of hundredths (rounding to exactly 2 decimal places). -/
theorem C3_score_bounded_two_decimals (e : Event) :
    0 ≤ calculate_threat_score e ∧ calculate_threat_score e ≤ 1 ∧
    ∃ k : ℤ, calculate_threat_score e = (k : ℚ) / 100 := by
  unfold calculate_threat_score
  exact clamp_round_shape _

theorem prefixMatch_append (n xs ys : List Char) (h : prefixMatch n xs = true) :
    prefixMatch n (xs ++ ys) = true := by
  induction n generalizing xs with
  | nil => rfl
  | cons a as ih =>
    cases xs with
    | nil => exact absurd h (by simp [prefixMatch])
    | cons x xt =>
      simp only [prefixMatch, Bool.and_eq_true] at h ⊢
      exact ⟨h.1, ih xt h.2⟩

theorem containsSeq_append_right (n xs ys : List Char) (h : containsSeq n xs = true) :
    containsSeq n (xs ++ ys) = true := by
  induction xs with
  | nil =>
    cases n with
    | nil =>
      cases ys with
      | nil => rfl
      | cons c cs => simp [containsSeq, prefixMatch]
    | cons a as => exact absurd h (by simp [containsSeq, prefixMatch])
  | cons x xt ih =>
    simp only [containsSeq, Bool.or_eq_true] at h
    rcases h with h | h
    · simp only [List.cons_append, containsSeq, Bool.or_eq_true]
      exact Or.inl (prefixMatch_append _ _ _ h)
    · simp only [List.cons_append, containsSeq, Bool.or_eq_true]
      exact Or.inr (ih h)

/-- C1: analyze_event issues the persistence call for the enriched
observation on every input whatever the score, and returns an alert exactly
when the final score reaches the 0.5 threshold. -/
theorem C1_analyze_persists_and_alerts_iff (sink : SinkOp → Bool) (e : Event) :
    (SinkOp.saveEvent (enrich e), sink (SinkOp.saveEvent (enrich e))) ∈
      (analyze_event sink e).2 ∧
    ((analyze_event sink e).1.isSome ↔ ALERT_THRESHOLD ≤ calculate_threat_score e) ∧
    (calculate_threat_score e < ALERT_THRESHOLD → (analyze_event sink e).1 = none) := by
  by_cases h : ALERT_THRESHOLD ≤ calculate_threat_score e <;>
    simp [analyze_event, enrich, h] <;> intro h2 <;> linarith

/-- C1 witness: a low-score observation is persisted and returns no alert. -/
theorem C1_analyze_persists_and_alerts_iff_witness :
    ((analyze_event (fun _ => true) { event_type := "high_resource" }).1 = none) := by
  have hk : has_critical_keyword { event_type := "high_resource" } = false := by decide
  have hsc : calculate_threat_score { event_type := "high_resource" } = 3/10 := by
    simp [calculate_threat_score, base_score, conn_count, hk]
    norm_num [round2, pymin, pymax, round_eq]
  exact (C1_analyze_persists_and_alerts_iff (fun _ => true) _).2.2
    (by rw [hsc]; norm_num [ALERT_THRESHOLD])

/-- The sink used in failure scenarios: every alert write fails, every event
write succeeds. -/
def alert_failing_sink : SinkOp → Bool
  | .saveAlert _ => false
  | .saveEvent _ => true

/-- C10: when the final score reaches the threshold, analyze_event returns
the constructed alert dict no matter what the sink answers — in particular
when the alert write fails — and the orchestrator's alert counter counts it;
the alert sink call is still issued and carries the sink's verdict. -/
theorem C10_alert_returned_despite_sink_failure (sink : SinkOp → Bool) (e : Event)
    (h : ALERT_THRESHOLD ≤ calculate_threat_score e) :
    (analyze_event sink e).1 = some (mk_alert (enrich e)) ∧
    (analyze_event sink e).1 = (analyze_event (fun _ => true) e).1 ∧
    (SinkOp.saveAlert (mk_alert (enrich e)),
      sink (SinkOp.saveAlert (mk_alert (enrich e)))) ∈ (analyze_event sink e).2 ∧
    (run_collector_cycle sink "network" [e]).2.2 = 1 := by
  have hts : (enrich e).threat_score = calculate_threat_score e := by simp [enrich]
  refine ⟨?_, ?_, ?_, ?_⟩ <;>
    simp [run_collector_cycle, analyze_batch, analyze_event, enrich, h]

/-- C10 witness: with a sink that fails every alert write, the alert for a
0.8-score observation is still returned and counted. -/
theorem C10_alert_returned_despite_sink_failure_witness :
    (analyze_event alert_failing_sink { event_type := "suspicious_process" }).1 =
      some (mk_alert (enrich { event_type := "suspicious_process" })) ∧
    (run_collector_cycle alert_failing_sink "network"
      [{ event_type := "suspicious_process" }]).2.2 = 1 := by
  have hk : has_critical_keyword { event_type := "suspicious_process" } = false := by decide
  have hsc : calculate_threat_score { event_type := "suspicious_process" } = 8/10 := by
    simp [calculate_threat_score, base_score, conn_count, hk]
    norm_num [round2, pymin, pymax, round_eq]
  have h := C10_alert_returned_despite_sink_failure alert_failing_sink
    { event_type := "suspicious_process" } (by rw [hsc]; norm_num [ALERT_THRESHOLD])
  exact ⟨h.1, h.2.2.2⟩

/-- C4: the critical-keyword bonus depends on the text only through the
any-keyword-matches flag (so it is added at most once however many keywords
occur), and a zero-prior-score suspicious_process observation whose title
contains a keyword (and whose evidence reports no more than 50 connections)
scores exactly 0.95 with severity critical. -/
theorem C4_keyword_bonus_once :
    (∀ e1 e2 : Event, e1.event_type = e2.event_type →
      e1.threat_score = e2.threat_score → e1.raw_data = e2.raw_data →
      has_critical_keyword e1 = has_critical_keyword e2 →
      calculate_threat_score e1 = calculate_threat_score e2) ∧
    (∀ e : Event, e.event_type = "suspicious_process" → e.threat_score = 0 →
      (∃ kw, kw ∈ critical_keywords ∧ containsSeq kw.data (lowerChars e.title) = true) →
      conn_count e ≤ 50 →
      calculate_threat_score e = 95/100 ∧
      get_severity_from_score (calculate_threat_score e) = "critical") := by
  constructor
  · intro e1 e2 ht hs hr hk
    unfold calculate_threat_score
    rw [ht, hs, hk, show conn_count e1 = conn_count e2 by rw [conn_count, conn_count, hr]]
  · intro e htype hts hkw hconn
    rcases hkw with ⟨kw, hmem, hcont⟩
    have hk : has_critical_keyword e = true := by
      unfold has_critical_keyword
      rw [List.any_eq_true]
      exact ⟨kw, hmem, containsSeq_append_right _ _ _ hcont⟩
    have hc : ¬ (50 < conn_count e) := by omega
    have hscore : calculate_threat_score e = 95/100 := by
      unfold calculate_threat_score
      rw [htype, hts]
      norm_num [base_score, hk, hc, pymin, pymax, round2, round_eq]
    refine ⟨hscore, ?_⟩
    rw [hscore]
    norm_num [get_severity_from_score]

/-- C4 witness: a one-keyword title and a three-keyword title with the same
kind, prior score and evidence get the same score, and the three-keyword one
scores exactly 0.95. -/
theorem C4_keyword_bonus_once_witness :
    calculate_threat_score
        { event_type := "suspicious_process", title := "mimikatz detected" } =
      calculate_threat_score
        { event_type := "suspicious_process",
          title := "mimikatz keylogger malware detected" } ∧
    calculate_threat_score
        { event_type := "suspicious_process",
          title := "mimikatz keylogger malware detected" } = 95/100 :=
  ⟨C4_keyword_bonus_once.1 _ _ rfl rfl rfl (by decide),
   (C4_keyword_bonus_once.2 _ rfl rfl ⟨"mimikatz", by decide, by decide⟩
     (by decide)).1⟩

/-- C5: the port-scan check fires exactly when the poll saw at least 20
connections with at least 20 distinct remote ports; the finding carries
score 0.7, severity high, and the two counts as evidence; 25 connections
with only 19 distinct ports, or fewer than 20 connections, yield nothing. -/
theorem C5_port_scan_threshold :
    (∀ ports : List Nat,
      (check_port_scan ports).isSome ↔
        20 ≤ ports.length ∧ 20 ≤ ports.dedup.length) ∧
    (∀ ports : List Nat, ∀ e : Event, check_port_scan ports = some e →
      e.threat_score = 7/10 ∧ e.severity = "high" ∧
      e.raw_data = some (.scan ports.dedup.length ports.length)) ∧
    check_port_scan (List.range 19 ++ [0, 0, 0, 0, 0, 0]) = none ∧
    check_port_scan (List.range 19) = none := by
  refine ⟨?_, ?_, by decide, by decide⟩
  · intro ports
    unfold check_port_scan
    split_ifs with h1 h2 <;> simp <;> omega
  · intro ports e h
    unfold check_port_scan at h
    split_ifs at h with h1 h2
    · simp only [Option.some.injEq] at h
      subst h
      simp [port_scan_event]

/-- C5 witness: a poll of 20 distinct remote ports fires the check. -/
theorem C5_port_scan_threshold_witness :
    (check_port_scan (List.range 20)).isSome = true :=
  (C5_port_scan_threshold.1 (List.range 20)).mpr (by decide)

/-- C6 (amended): an established connection whose remote port is suspicious
always yields the high/0.8 remote finding; a suspicious local port yields
the critical/0.85 finding only when the remote-port branch did not fire; the
per-connection check yields at most one finding, so a connection with both
ports suspicious yields only the remote finding. -/
theorem C6_suspicious_port_findings :
    (∀ c : Conn, ∀ r : Addr, c.raddr = some r → r.port ∈ SUSPICIOUS_PORTS →
      check_suspicious_port c = some (remote_port_event c r) ∧
      (remote_port_event c r).severity = "high" ∧
      (remote_port_event c r).threat_score = 8/10) ∧
    (∀ c : Conn, ∀ l : Addr, c.laddr = some l → l.port ∈ SUSPICIOUS_PORTS →
      (∀ r : Addr, c.raddr = some r → r.port ∉ SUSPICIOUS_PORTS) →
      check_suspicious_port c = some (local_port_event c l) ∧
      (local_port_event c l).severity = "critical" ∧
      (local_port_event c l).threat_score = 85/100) ∧
    (∀ c : Conn, (check_suspicious_port c).toList.length ≤ 1) := by
  refine ⟨?_, ?_, ?_⟩
  · intro c r hr hp
    unfold check_suspicious_port
    rw [hr]
    simp [hp, remote_port_event]
  · intro c l hl hp hnr
    unfold check_suspicious_port check_local_port
    cases hc : c.raddr with
    | none => rw [hl]; simp [hp, local_port_event]
    | some r =>
      have := hnr r hc
      rw [hl]
      simp [this, hp, local_port_event]
  · intro c
    cases check_suspicious_port c <;> simp

/-- A connection whose remote and local ports are both in the
suspicious-port set. -/
def bothConn : Conn :=
  { status := "ESTABLISHED"
    laddr := some { ip := "0.0.0.0", port := 5555 }
    raddr := some { ip := "9.9.9.9", port := 4444 }
    pid := some 42 }

/-- C6 counterexample: a poll of one established connection with both ports
suspicious yields exactly one finding — the remote one — not two. -/
theorem C6_counterexample_one_finding_not_two :
    (network_collect [bothConn]).length = 1 ∧
    network_collect [bothConn] =
      [remote_port_event bothConn { ip := "9.9.9.9", port := 4444 }] :=
  ⟨rfl, rfl⟩

/-- C6 witness: the remote finding for that connection, via the theorem. -/
theorem C6_suspicious_port_findings_witness :
    check_suspicious_port bothConn =
      some (remote_port_event bothConn { ip := "9.9.9.9", port := 4444 }) :=
  (C6_suspicious_port_findings.1 bothConn { ip := "9.9.9.9", port := 4444 }
    rfl (by decide)).1

/-- C8: the engine loop routes a system-health batch neither through
analyze_batch nor to the persistence sink: the whole cycle body is skipped,
so the batch is dropped (the claim and spec say it is persisted as raw
telemetry — no code in the repository ever writes a SystemMetric row). -/
theorem C8_system_batches_dropped (sink : SinkOp → Bool) (events : List Event) :
    run_collector_cycle sink "system" events = ([], 0, 0) := by
  simp [run_collector_cycle]

/-- C7: for a suspicious-extension file, the first poll emits exactly the
new-suspicious-file finding (score 0.7) and stores its digest; a second poll
with the same digest emits nothing; a poll whose digest differs emits
exactly the modified finding (score 0.5) and replaces the stored digest. -/
theorem C7_file_change_lifecycle (f : FileObs) (h1 h2 : String)
    (hext : String.mk (lowerChars f.suffix) ∈ SUSPICIOUS_EXTENSIONS)
    (hne : h2 ≠ h1) :
    file_collect [] [{ f with digest := some h1 }] =
      ([(f.path, h1)],
        [new_file_event { f with digest := some h1 } (String.mk (lowerChars f.suffix))]) ∧
    file_collect [(f.path, h1)] [{ f with digest := some h1 }] = ([(f.path, h1)], []) ∧
    file_collect [(f.path, h1)] [{ f with digest := some h2 }] =
      ([(f.path, h2)], [file_modified_event { f with digest := some h2 } h1 h2]) ∧
    (new_file_event { f with digest := some h1 }
      (String.mk (lowerChars f.suffix))).threat_score = 7/10 ∧
    (file_modified_event { f with digest := some h2 } h1 h2).threat_score = 5/10 := by
  refine ⟨?_, ?_, ?_, rfl, rfl⟩ <;>
    simp [file_collect, process_file, check_extension, check_file_change,
      lookupKnown, setKnown, List.find?, hext, hne]

/-- A concrete .exe file in a watched temp directory. -/
def evilFile : FileObs :=
  { path := "C:\\Temp\\evil.exe"
    filename := "evil.exe"
    suffix := ".exe"
    size_bytes := 10
    directory := "C:\\Temp"
    digest := none }

/-- C7 witness: the three-poll scenario for a concrete .exe file with
digests "aaa", "aaa", "bbb". -/
theorem C7_file_change_lifecycle_witness :
    file_collect [] [{ evilFile with digest := some "aaa" }] =
      ([(evilFile.path, "aaa")],
        [new_file_event { evilFile with digest := some "aaa" }
          (String.mk (lowerChars evilFile.suffix))]) ∧
    file_collect [(evilFile.path, "aaa")] [{ evilFile with digest := some "aaa" }] =
      ([(evilFile.path, "aaa")], []) ∧
    file_collect [(evilFile.path, "aaa")] [{ evilFile with digest := some "bbb" }] =
      ([(evilFile.path, "bbb")],
        [file_modified_event { evilFile with digest := some "bbb" } "aaa" "bbb"]) := by
  have h := C7_file_change_lifecycle evilFile "aaa" "bbb" (by decide) (by decide)
  exact ⟨h.1, h.2.1, h.2.2.1⟩

/-- Once stop() has cleared the running flag, no step raises it again. -/
theorem engStep_keeps_stopped {s t : EngineState} {evs : List Ev}
    (h : EngStep s evs t) (hr : s.running = false) : t.running = false := by
  cases h with
  | enterCycle i hp hrun => rw [hr] at hrun; exact absurd hrun (by simp)
  | exitLoop i hp hrun => exact hr
  | collectDone i hp => exact hr
  | analyzeDone i hp => exact hr
  | sleepDone i hp => exact hr
  | stopCall h => rfl

/-- C9 (amended): a collector task never halts mid-cycle — it can only halt
at the loop top with the running flag down, so an in-progress
collect-and-analyze cycle always completes — and once the running flag is
down (stop() has run) each task issues at most one further persistence
call, namely that of its in-flight cycle; a task at its loop top, asleep or
halted issues none.  (The claim's stronger reading — no persistence call at
all after stop() returns — is refuted by the counterexample execution.) -/
theorem C9_stop_cycle_completion :
    (∀ s t : EngineState, ∀ evs : List Ev, EngStep s evs t → ∀ i : Nat,
      t.pc i = Pc.halted →
      s.pc i = Pc.halted ∨ (s.pc i = Pc.top ∧ s.running = false)) ∧
    (∀ s t : EngineState, ∀ tr : List Ev, EngExec s tr t → s.running = false →
      ∀ i : Nat, tr.count (Ev.persist i) ≤ postStopBudget (s.pc i)) := by
  constructor
  · intro s t evs hstep i hhalt
    cases hstep with
    | enterCycle j hj hr =>
      rcases eq_or_ne i j with rfl | hij
      · simp [setPc, Function.update_apply] at hhalt
      · simp [setPc, Function.update_apply, hij] at hhalt
        exact Or.inl hhalt
    | exitLoop j hj hr =>
      rcases eq_or_ne i j with rfl | hij
      · exact Or.inr ⟨hj, hr⟩
      · simp [setPc, Function.update_apply, hij] at hhalt
        exact Or.inl hhalt
    | collectDone j hj =>
      rcases eq_or_ne i j with rfl | hij
      · simp [setPc, Function.update_apply] at hhalt
      · simp [setPc, Function.update_apply, hij] at hhalt
        exact Or.inl hhalt
    | analyzeDone j hj =>
      rcases eq_or_ne i j with rfl | hij
      · simp [setPc, Function.update_apply] at hhalt
      · simp [setPc, Function.update_apply, hij] at hhalt
        exact Or.inl hhalt
    | sleepDone j hj =>
      rcases eq_or_ne i j with rfl | hij
      · simp [setPc, Function.update_apply] at hhalt
      · simp [setPc, Function.update_apply, hij] at hhalt
        exact Or.inl hhalt
    | stopCall h => exact Or.inl hhalt
  · intro s t tr hexec
    induction hexec with
    | nil s =>
      intro hr i
      simp
    | cons s t u evs1 evs2 hstep hrest ih =>
      intro hr i
      have hr2 : t.running = false := engStep_keeps_stopped hstep hr
      have ih2 := ih hr2 i
      rw [List.count_append]
      cases hstep with
      | enterCycle j hj hrun => rw [hr] at hrun; exact absurd hrun (by simp)
      | exitLoop j hj hrun =>
        rcases eq_or_ne i j with rfl | hij
        · simp only [setPc, Function.update_apply, if_pos rfl] at ih2
          rw [hj]
          simpa [postStopBudget] using ih2
        · simp only [setPc, Function.update_apply, if_neg hij] at ih2
          simpa using ih2
      | collectDone j hj =>
        rcases eq_or_ne i j with rfl | hij
        · simp only [setPc, Function.update_apply, if_pos rfl] at ih2
          rw [hj]
          simpa [postStopBudget] using ih2
        · simp only [setPc, Function.update_apply, if_neg hij] at ih2
          simpa using ih2
      | analyzeDone j hj =>
        rcases eq_or_ne i j with rfl | hij
        · have ih3 : List.count (Ev.persist i) evs2 = 0 := by
            simp [setPc, Function.update_apply, postStopBudget] at ih2
            omega
          rw [hj]
          simp [List.count_cons, postStopBudget, ih3]
        · simp only [setPc, Function.update_apply, if_neg hij] at ih2
          have hij2 : j ≠ i := Ne.symm hij
          have hcount : List.count (Ev.persist i) [Ev.persist j] = 0 := by
            simp [List.count_cons, hij2]
          omega
      | sleepDone j hj =>
        rcases eq_or_ne i j with rfl | hij
        · simp only [setPc, Function.update_apply, if_pos rfl] at ih2
          rw [hj]
          simpa [postStopBudget] using ih2
        · simp only [setPc, Function.update_apply, if_neg hij] at ih2
          simpa using ih2
      | stopCall h =>
        have hcount : List.count (Ev.persist i) [Ev.stopRet] = 0 := by
          simp [List.count_cons]
        simp only [hcount]
        simpa using ih2

/-- C9 counterexample: an execution from the started engine in which task 0
is mid-cycle when stop() returns, and the cycle's persistence call lands
strictly after the stop: the trace is stopRet followed by persist 0. -/
theorem C9_counterexample_persist_after_stop :
    EngExec engInit [Ev.stopRet, Ev.persist 0]
      (setPc
        { running := false, stopReturned := true,
          pc := (setPc (setPc engInit 0 Pc.collecting) 0 Pc.analyzing).pc }
        0 Pc.sleeping) ∧
    [Ev.stopRet, Ev.persist 0].head? = some Ev.stopRet ∧
    [Ev.stopRet, Ev.persist 0].getLast? = some (Ev.persist 0) := by
  refine ⟨?_, rfl, rfl⟩
  refine EngExec.cons _ _ _ [] _ (EngStep.enterCycle engInit 0 rfl rfl) ?_
  refine EngExec.cons _ _ _ [] _ (EngStep.collectDone _ 0 ?_) ?_
  · simp [setPc, engInit]
  refine EngExec.cons _ _ _ [Ev.stopRet] _ (EngStep.stopCall _ rfl) ?_
  refine EngExec.cons _ _ _ [Ev.persist 0] [] (EngStep.analyzeDone _ 0 ?_) (EngExec.nil _)
  simp [setPc, engInit]

/-- C9 witness: the post-stop persistence bound applied to a concrete
stopped state: a task whose cycle is in flight has budget one, a task at
the loop top has budget zero. -/
theorem C9_stop_cycle_completion_witness :
    List.count (Ev.persist 0) ([] : List Ev) ≤ postStopBudget Pc.top :=
  C9_stop_cycle_completion.2
    { running := false, stopReturned := true, pc := fun _ => Pc.top }
    { running := false, stopReturned := true, pc := fun _ => Pc.top }
    [] (EngExec.nil _) rfl 0

end ThreatHawk
